import Mathlib

set_option autoImplicit false

/-!
Verification of the NovaIntel front-end API client (`src/lib/api.ts`).

The client is a fetch wrapper over a JSON backend.  We embed it shallowly:

* browser `localStorage` is an association list of string keys to string
  values (`Storage`);
* the network is an oracle (`World`): a list of fetch outcomes consumed in
  order, one per `fetch` call; an exhausted oracle makes `fetch` reject
  with a network error, exactly as an unreachable backend would;
* JSON values are the inductive `Json`; a response body is `some v` when
  `response.json()` would resolve with `v`, and `none` when it would
  reject with a parse error (non-JSON or empty body);
* every operation returns an `Outcome`: the JS promise result (`Except`
  distinguishing resolution from rejection), the final storage, the
  unconsumed oracle, and the chronological trace of fetch calls issued.

JavaScript peculiarities that matter to the behaviour are modelled
explicitly: `||` truthiness, `{...spread}` object literals, property reads
on a parsed `null` throwing a TypeError, and template-string coercion of
`undefined`/`null`.
-/

namespace NovaIntel

/-- JSON values as exchanged with the backend (api.ts serializes and
parses plain JSON). -/
inductive Json where
  | null
  | bool (b : Bool)
  | num (n : Int)
  | str (s : String)
  | arr (elems : List Json)
  | obj (fields : List (String × Json))

/-- First binding of a key in an object's field list (JS property lookup;
object literals and our constructions keep keys unique). -/
def lookupField : List (String × Json) → String → Option Json
  | [], _ => none
  | (k', v) :: rest, k => if k' == k then some v else lookupField rest k

/-- Property read `v.k` in JS terms: `none` plays the role of `undefined`
(missing property, or property read on a non-object primitive). Reads on
`null` are handled separately by the callers that can encounter them. -/
def jsField : Json → String → Option Json
  | .obj fields, k => lookupField fields k
  | _, _ => none

/-- JS truthiness of a JSON value. -/
def jsTruthy : Json → Bool
  | .null => false
  | .bool b => b
  | .num n => n != 0
  | .str s => s != ""
  | .arr _ => true
  | .obj _ => true

/-- JS string coercion (template literals, `localStorage.setItem`). -/
def jsToString : Json → String
  | .null => "null"
  | .bool true => "true"
  | .bool false => "false"
  | .num n => toString n
  | .str s => s
  | .arr elems => jsToStringArr elems
  | .obj _ => "[object Object]"
where
  /-- Array coercion joins element coercions with commas; as in
  `Array.prototype.join`, a null element renders as the empty string. -/
  jsToStringArr : List Json → String
  | [] => ""
  | [Json.null] => ""
  | [j] => jsToString j
  | Json.null :: rest => "," ++ jsToStringArr rest
  | j :: rest => jsToString j ++ "," ++ jsToStringArr rest

/-- Coercion of a possibly-`undefined` property value into the string that
a template literal or `localStorage.setItem` would store. -/
def coerceUndef : Option Json → String
  | none => "undefined"
  | some v => jsToString v

/-- JS `a || b` on a property read: the value when present and truthy,
otherwise the fallback. -/
def jsOr (v : Option Json) (fallback : Json) : Json :=
  match v with
  | some j => if jsTruthy j then j else fallback
  | none => fallback

/-- Does the first character list start with the second? -/
def charsStartWith : List Char → List Char → Bool
  | _, [] => true
  | [], _ :: _ => false
  | a :: as, b :: bs => a == b && charsStartWith as bs

/-- Does the second character list occur inside the first? -/
def charsInclude : List Char → List Char → Bool
  | [], sub => sub.isEmpty
  | a :: t, sub => charsStartWith (a :: t) sub || charsInclude t sub

/-- `String.prototype.includes` (substring test). -/
def strIncludes (s sub : String) : Bool :=
  charsInclude s.toList sub.toList

/-- Truthiness of `localStorage.getItem`'s `string | null` result
(`null` and the empty string are falsy). -/
def strTruthy : Option String → Bool
  | none => false
  | some s => s != ""

/-- Browser `localStorage`: insertion-ordered key/value pairs with unique
keys (our writers keep them unique). -/
abbrev Storage := List (String × String)

/-- `localStorage.getItem`. -/
def getItem : Storage → String → Option String
  | [], _ => none
  | (k', v) :: rest, k => if k' == k then some v else getItem rest k

/-- `localStorage.setItem`: overwrite in place, else append. -/
def setItem : Storage → String → String → Storage
  | [], k, v => [(k, v)]
  | (k', v') :: rest, k, v =>
      if k' == k then (k, v) :: rest else (k', v') :: setItem rest k v

/-- `localStorage.removeItem`. -/
def removeItem : Storage → String → Storage
  | [], _ => []
  | (k', v') :: rest, k =>
      if k' == k then removeItem rest k else (k', v') :: removeItem rest k

/-- An HTTP response as the client observes it.  `body` is `some v` when
`response.json()` would resolve with `v` and `none` when it would reject
(the body is empty or not valid JSON). -/
structure HttpResponse where
  status : Nat
  statusText : String
  contentType : Option String
  body : Option Json

/-- `Response.ok`: status in the 2xx range. -/
def HttpResponse.ok (r : HttpResponse) : Bool :=
  200 ≤ r.status && r.status ≤ 299

/-- One `fetch` either yields a response or rejects (network failure). -/
inductive FetchOutcome where
  | success (response : HttpResponse)
  | networkError (message : String)

/-- The network oracle: outcomes consumed in order, one per fetch call. -/
abbrev World := List FetchOutcome

/-- A record of one fetch call as issued on the wire. -/
structure FetchCall where
  url : String
  method : String
  headers : List (String × String)
  body : Option Json

/-- A JS rejection value: an explicit `new Error(message)`, a
`response.json()` parse rejection, or a `fetch` network rejection. -/
inductive JsError where
  | error (message : String)
  | parseError (message : String)
  | networkError (message : String)

/-- `error.message` (all three kinds are Error instances in JS). -/
def JsError.message : JsError → String
  | .error m => m
  | .parseError m => m
  | .networkError m => m

/-- The second argument of `request`: `RequestInit` restricted to the
fields the client uses. -/
structure RequestOptions where
  method : String := "GET"
  headers : List (String × String) := []
  body : Option Json := none

/-- Result of running a client operation against an oracle: the promise
outcome, the final storage, the unconsumed oracle, and the trace of fetch
calls issued (in order). -/
structure Outcome (α : Type) where
  result : Except JsError α
  storage : Storage
  world : World
  trace : List FetchCall

/-- Header-object property write: overwrite in place, else append
(JS object key assignment). -/
def setHeader : List (String × String) → String → String → List (String × String)
  | [], k, v => [(k, v)]
  | (k', v') :: rest, k, v =>
      if k' == k then (k, v) :: rest else (k', v') :: setHeader rest k v

/-- Header-object property read. -/
def getHeader : List (String × String) → String → Option String
  | [], _ => none
  | (k', v) :: rest, k => if k' == k then some v else getHeader rest k

/-- Object spread `{...base, ...extra}` on header objects: entries of
`extra` assigned over `base` in order. -/
def spreadHeaders (base extra : List (String × String)) : List (String × String) :=
  extra.foldl (fun acc p => setHeader acc p.1 p.2) base

/-- Last binding of a key in a literal header list: the value JS keeps
when the same key is written repeatedly. -/
def lastLookup : List (String × String) → String → Option String
  | [], _ => none
  | (k', v') :: rest, k =>
      match lastLookup rest k with
      | some v => some v
      | none => if k' == k then some v' else none

namespace ApiClient

/-- api.ts:3 resolved default. -/
def API_BASE_URL : String := "http://localhost:8000"

/-- api.ts:107. -/
def getAuthToken (s : Storage) : Option String := getItem s "access_token"

/-- api.ts:111. -/
def getRefreshToken (s : Storage) : Option String := getItem s "refresh_token"

/-- api.ts:115-118: both tokens written together. -/
def setTokens (s : Storage) (accessToken refreshToken : String) : Storage :=
  setItem (setItem s "access_token" accessToken) "refresh_token" refreshToken

/-- api.ts:120-123: both tokens removed together. -/
def clearTokens (s : Storage) : Storage :=
  removeItem (removeItem s "access_token") "refresh_token"

/-- api.ts:130-137: default headers, caller headers spread over them, then
the bearer header assigned when a (truthy) access token is in storage. -/
def requestHeaders (storage : Storage) (options : RequestOptions) : List (String × String) :=
  let headers := spreadHeaders [("Content-Type", "application/json")] options.headers
  match getAuthToken storage with
  | some t => if t != "" then setHeader headers "Authorization" ("Bearer " ++ t) else headers
  | none => headers

/-- Body posted by `refreshAccessToken` (api.ts:222). -/
def refreshBody (refreshToken : String) : Json :=
  .obj [("refresh_token", .str refreshToken)]

/-- Options of the `refreshAccessToken` call (api.ts:219-224). -/
def refreshOptions (refreshToken : String) : RequestOptions :=
  { method := "POST", body := some (refreshBody refreshToken) }

/-- `contentType && contentType.includes("application/json")` (api.ts:191-192). -/
def isJsonContentType : Option String → Bool
  | none => false
  | some ct => strIncludes ct "application/json"

/-- `error.detail || fallback` on a parsed (non-null) JSON error body. -/
def detailOr (v : Json) (fallback : String) : String :=
  match jsField v "detail" with
  | some d => if jsTruthy d then jsToString d else fallback
  | none => fallback

/-- The synthesized error message `HTTP {status}: {statusText}`
(api.ts:185). -/
def statusLine (r : HttpResponse) : String :=
  "HTTP " ++ toString r.status ++ ": " ++ r.statusText

/-- `ApiClient.request` (api.ts:125-197), one oracle entry per `fetch`.

Path by path:
* oracle exhausted / network failure: `await fetch` rejects and the
  rejection propagates (nothing catches it before the status checks);
* status 401/403 (api.ts:146-181): with a truthy access token and a truthy
  refresh token, the client calls `refreshAccessToken` — which goes back
  through this same `request` routine (api.ts:219-224) — inside a `try`.
  On refreshed tokens it persists the pair, retries the original request
  once with the new bearer header, and returns `retryResponse.json()`
  when the retry is `ok`.  A refresh body parsed as JSON `null` makes the
  `refreshed.access_token` read itself throw a TypeError inside the try —
  caught: tokens cleared, "Session expired." rethrown, no retry issued.  That `return` is not `await`ed, so a parse
  rejection of the retry body bypasses the `catch` and rejects the call
  directly, without clearing tokens.  A non-ok retry falls through, and a
  rejection of the refresh call or of the retry fetch is caught: tokens
  cleared, "Session expired." rethrown.  All remaining 401/403 paths fall
  to api.ts:178-180: tokens cleared, "Authentication required." thrown;
* other non-ok response (api.ts:183-188): the parsed `detail` field if the
  body parses and the field is truthy, else "An error occurred"; if the
  body does not parse, the synthesized status line.  A body parsing to
  JSON `null` makes the `error.detail` read itself throw a TypeError;
* ok response (api.ts:190-196): parse the body only when the content type
  includes "application/json", otherwise resolve with `{}`. -/
def request (endpoint : String) (options : RequestOptions) (storage : Storage) :
    World → Outcome Json
  | [] =>
      ⟨.error (.networkError "Failed to fetch"), storage, [],
        [⟨API_BASE_URL ++ endpoint, options.method, requestHeaders storage options, options.body⟩]⟩
  | outcome :: rest =>
      let token := getAuthToken storage
      let headers := requestHeaders storage options
      let url := API_BASE_URL ++ endpoint
      let call : FetchCall := ⟨url, options.method, headers, options.body⟩
      match outcome with
      | .networkError msg => ⟨.error (.networkError msg), storage, rest, [call]⟩
      | .success response =>
          if response.status == 401 || response.status == 403 then
            if strTruthy token then
              match getRefreshToken storage with
              | some refreshToken =>
                  if refreshToken != "" then
                    let nested := request "/auth/refresh" (refreshOptions refreshToken) storage rest
                    match nested.result with
                    | .error _ =>
                        -- catch (api.ts:168-173): refresh rejected
                        ⟨.error (.error "Session expired. Please login again."),
                          clearTokens nested.storage, nested.world, call :: nested.trace⟩
                    | .ok Json.null =>
                        -- `refreshed.access_token` on a body parsed as JSON null
                        -- throws a TypeError inside the try; caught
                        -- (api.ts:168-173): tokens cleared, no retry issued
                        ⟨.error (.error "Session expired. Please login again."),
                          clearTokens nested.storage, nested.world, call :: nested.trace⟩
                    | .ok refreshed =>
                        let newAccess := coerceUndef (jsField refreshed "access_token")
                        let newRefresh := coerceUndef (jsField refreshed "refresh_token")
                        let storage2 := setTokens nested.storage newAccess newRefresh
                        let newHeaders := setHeader headers "Authorization" ("Bearer " ++ newAccess)
                        let retryCall : FetchCall := ⟨url, options.method, newHeaders, options.body⟩
                        match nested.world with
                        | [] =>
                            -- retry fetch rejects, caught (api.ts:168-173)
                            ⟨.error (.error "Session expired. Please login again."),
                              clearTokens storage2, [], call :: nested.trace ++ [retryCall]⟩
                        | .networkError _ :: rest2 =>
                            ⟨.error (.error "Session expired. Please login again."),
                              clearTokens storage2, rest2, call :: nested.trace ++ [retryCall]⟩
                        | .success retryResponse :: rest2 =>
                            if retryResponse.ok then
                              match retryResponse.body with
                              | some v =>
                                  ⟨.ok v, storage2, rest2, call :: nested.trace ++ [retryCall]⟩
                              | none =>
                                  -- `return retryResponse.json()` without await:
                                  -- the parse rejection bypasses the catch
                                  ⟨.error (.parseError "Unexpected end of JSON input"),
                                    storage2, rest2, call :: nested.trace ++ [retryCall]⟩
                            else
                              -- falls through to api.ts:178-180
                              ⟨.error (.error "Authentication required. Please login."),
                                clearTokens storage2, rest2, call :: nested.trace ++ [retryCall]⟩
                  else
                    ⟨.error (.error "Authentication required. Please login."),
                      clearTokens storage, rest, [call]⟩
              | none =>
                  ⟨.error (.error "Authentication required. Please login."),
                    clearTokens storage, rest, [call]⟩
            else
              ⟨.error (.error "Authentication required. Please login."),
                clearTokens storage, rest, [call]⟩
          else if !response.ok then
            match response.body with
            | some Json.null =>
                -- `error.detail` on a parsed null body throws a TypeError
                ⟨.error (.error "Cannot read properties of null (reading 'detail')"),
                  storage, rest, [call]⟩
            | some v => ⟨.error (.error (detailOr v "An error occurred")), storage, rest, [call]⟩
            | none => ⟨.error (.error (statusLine response)), storage, rest, [call]⟩
          else
            if isJsonContentType response.contentType then
              match response.body with
              | some v => ⟨.ok v, storage, rest, [call]⟩
              | none => ⟨.error (.parseError "Unexpected end of JSON input"), storage, rest, [call]⟩
            else
              ⟨.ok (Json.obj []), storage, rest, [call]⟩

/-- `ApiClient.login` (api.ts:200-207): on resolution, persist the
returned pair (template/`setItem` coercion applies to missing fields; a
body parsed as JSON `null` makes the property reads throw). -/
def login (credentials : Json) (storage : Storage) (world : World) : Outcome Json :=
  let r := request "/auth/login" { method := "POST", body := some credentials } storage world
  match r.result with
  | .ok Json.null =>
      ⟨.error (.error "Cannot read properties of null (reading 'access_token')"),
        r.storage, r.world, r.trace⟩
  | .ok response =>
      ⟨.ok response,
        setTokens r.storage (coerceUndef (jsField response "access_token"))
          (coerceUndef (jsField response "refresh_token")),
        r.world, r.trace⟩
  | .error e => ⟨.error e, r.storage, r.world, r.trace⟩

/-- `ApiClient.register` (api.ts:209-217): a plain request; deliberately
does not persist tokens (no auto-login after registration). -/
def register (userData : Json) (storage : Storage) (world : World) : Outcome Json :=
  request "/auth/register" { method := "POST", body := some userData } storage world

/-- `ApiClient.refreshAccessToken` (api.ts:219-224): routed through the
generic `request` routine. -/
def refreshAccessToken (refreshToken : String) (storage : Storage) (world : World) : Outcome Json :=
  request "/auth/refresh" (refreshOptions refreshToken) storage world

/-- `ApiClient.logout` (api.ts:226-228). -/
def logout (storage : Storage) : Storage := clearTokens storage

/-- Body posted by `chatWithRFP` (api.ts:349-357). -/
def chatBody (projectId : Int) (query : String) (conversationHistory : List Json) : Json :=
  .obj [("project_id", .num projectId), ("query", .str query),
        ("conversation_history", .arr conversationHistory), ("top_k", .num 5)]

/-- The structured failure object `chatWithRFP` resolves with when the
underlying request rejects (api.ts:365-375); `error.message || fallback`. -/
def chatFailure (query : String) (e : JsError) : Json :=
  .obj [("success", .bool false),
        ("error", .str (if e.message != "" then e.message else "Failed to connect to chat service")),
        ("answer", .str ""), ("response", .str ""),
        ("sources", .arr []), ("query", .str query)]

/-- Object-field write with JS literal semantics: overwrite in place,
else append. -/
def setField : List (String × Json) → String → Json → List (String × Json)
  | [], k, v => [(k, v)]
  | (k', v') :: rest, k, v =>
      if k' == k then (k, v) :: rest else (k', v') :: setField rest k v

/-- Object spread `{...v}` of a parsed (non-null) JSON value: fields of an
object, indexed entries of an array or string, nothing for primitives. -/
def jsSpread : Json → List (String × Json)
  | .obj fields => fields
  | .arr elems => elems.enum.map (fun p => (toString p.1, p.2))
  | .str s => s.toList.enum.map (fun p => (toString p.1, Json.str (String.singleton p.2)))
  | _ => []

/-- The success normalization of `chatWithRFP` (api.ts:358-364):
`{...response, answer: response.answer || "", response: response.answer ||
response.response || "", success: response.success !== undefined ?
response.success : true}`. -/
def chatNormalize (response : Json) : Json :=
  .obj (setField (setField (setField (jsSpread response)
      "answer" (jsOr (jsField response "answer") (.str "")))
      "response" (jsOr (jsField response "answer") (jsOr (jsField response "response") (.str ""))))
      "success" (match jsField response "success" with | some s => s | none => .bool true))

/-- `ApiClient.chatWithRFP` (api.ts:343-376): the whole request and
normalization run inside a `try`; any rejection (including the TypeError
from normalizing a body parsed as JSON `null`) is converted into the
structured failure object, so the method always resolves. -/
def chatWithRFP (projectId : Int) (query : String) (conversationHistory : List Json)
    (storage : Storage) (world : World) : Outcome Json :=
  let r := request "/rag/chat"
      { method := "POST", body := some (chatBody projectId query conversationHistory) }
      storage world
  match r.result with
  | .ok Json.null =>
      ⟨.ok (chatFailure query (.error "Cannot read properties of null (reading 'answer')")),
        r.storage, r.world, r.trace⟩
  | .ok response => ⟨.ok (chatNormalize response), r.storage, r.world, r.trace⟩
  | .error e => ⟨.ok (chatFailure query e), r.storage, r.world, r.trace⟩

/-- `ApiClient.getProposalByProject` (api.ts:492-506): a thrown error
whose message contains "404" or "not found" resolves to `null`; any other
rejection is rethrown unchanged. -/
def getProposalByProject (projectId : Int) (storage : Storage) (world : World) : Outcome Json :=
  let r := request ("/proposal/by-project/" ++ toString projectId) {} storage world
  match r.result with
  | .ok v => ⟨.ok v, r.storage, r.world, r.trace⟩
  | .error e =>
      if strIncludes e.message "404" || strIncludes e.message "not found" then
        ⟨.ok Json.null, r.storage, r.world, r.trace⟩
      else
        ⟨.error e, r.storage, r.world, r.trace⟩

/-- `ApiClient.uploadRFP` (api.ts:295-319): a bare `fetch` with only the
bearer header (multipart body), no JSON auth-retry; on a non-ok response
the parsed `detail` (fallback "Upload failed"), else the synthesized
status line; on ok, an unconditional `response.json()`. -/
def uploadRFP (projectId : Int) (storage : Storage) (world : World) : Outcome Json :=
  let token := getAuthToken storage
  let headers : List (String × String) :=
    match token with
    | some t => if t != "" then [("Authorization", "Bearer " ++ t)] else []
    | none => []
  let url := API_BASE_URL ++ "/upload/rfp?project_id=" ++ toString projectId
  -- the body is multipart form data, not JSON; recorded as `none`
  let call : FetchCall := ⟨url, "POST", headers, none⟩
  match world with
  | [] => ⟨.error (.networkError "Failed to fetch"), storage, [], [call]⟩
  | .networkError msg :: rest => ⟨.error (.networkError msg), storage, rest, [call]⟩
  | .success response :: rest =>
      if !response.ok then
        match response.body with
        | some Json.null =>
            ⟨.error (.error "Cannot read properties of null (reading 'detail')"),
              storage, rest, [call]⟩
        | some v => ⟨.error (.error (detailOr v "Upload failed")), storage, rest, [call]⟩
        | none => ⟨.error (.error (statusLine response)), storage, rest, [call]⟩
      else
        match response.body with
        | some v => ⟨.ok v, storage, rest, [call]⟩
        | none => ⟨.error (.parseError "Unexpected end of JSON input"), storage, rest, [call]⟩

/-- `formatMap[format] || "pdf"` (api.ts:578-583). -/
def exportEndpoint (format : String) : String :=
  if format == "pdf" then "pdf"
  else if format == "docx" then "docx"
  else if format == "pptx" then "pptx"
  else "pdf"

/-- `ApiClient.exportProposal` (api.ts:573-603): a bare GET `fetch` with
only the bearer header, no JSON auth-retry; on a non-ok response the
parsed `detail`, with the fixed fallback "Export failed" both when the
field is missing/falsy and when the body does not parse; on ok,
`response.blob()`. -/
def exportProposal (proposalId : Int) (format : String) (storage : Storage) (world : World) :
    Outcome Unit :=
  let token := getAuthToken storage
  let headers : List (String × String) :=
    match token with
    | some t => if t != "" then [("Authorization", "Bearer " ++ t)] else []
    | none => []
  let url := API_BASE_URL ++ "/proposal/export/" ++ exportEndpoint format
      ++ "?proposal_id=" ++ toString proposalId
  let call : FetchCall := ⟨url, "GET", headers, none⟩
  match world with
  | [] => ⟨.error (.networkError "Failed to fetch"), storage, [], [call]⟩
  | .networkError msg :: rest => ⟨.error (.networkError msg), storage, rest, [call]⟩
  | .success response :: rest =>
      if !response.ok then
        match response.body with
        | some Json.null =>
            ⟨.error (.error "Cannot read properties of null (reading 'detail')"),
              storage, rest, [call]⟩
        | some v => ⟨.error (.error (detailOr v "Export failed")), storage, rest, [call]⟩
        | none =>
            -- `.catch(() => ({ detail: "Export failed" }))`: no status line here
            ⟨.error (.error "Export failed"), storage, rest, [call]⟩
      else
        ⟨.ok (), storage, rest, [call]⟩

/-- `ApiClient.getNotifications` (api.ts:611-618): reads the (unrelated)
`"token"` storage key and passes an explicit Authorization header; a
missing key coerces to the string "null" in the template literal. -/
def getNotifications (storage : Storage) (world : World) : Outcome Json :=
  let token := getItem storage "token"
  request "/notifications"
    { headers := [("Authorization", "Bearer " ++ (match token with | some t => t | none => "null"))] }
    storage world

/-- Is a recorded fetch call a hit on the token-refresh endpoint? -/
def isRefreshCall (c : FetchCall) : Bool :=
  c.url == API_BASE_URL ++ "/auth/refresh"

/-- Number of fetch calls to the token-refresh endpoint in a trace. -/
def refreshCallCount (trace : List FetchCall) : Nat :=
  (trace.filter isRefreshCall).length

end ApiClient

/-! Concrete fixtures used by witnesses and counterexamples. -/

/-- Storage holding a paired access/refresh token. -/
def storedPair : Storage := [("access_token", "A"), ("refresh_token", "R")]

/-- A 401 response with no parseable body. -/
def unauthorizedResp : HttpResponse := ⟨401, "Unauthorized", none, none⟩

/-- A successful refresh response carrying a new token pair. -/
def refreshOkResp : HttpResponse :=
  ⟨200, "OK", some "application/json",
    some (Json.obj [("access_token", .str "A2"), ("refresh_token", .str "R2"),
                    ("token_type", .str "bearer")])⟩

/-- A 204-style success: no content type, no parseable body. -/
def noContentResp : HttpResponse := ⟨204, "No Content", none, none⟩

/-- A 200 JSON response with a small object body. -/
def userJsonResp : HttpResponse :=
  ⟨200, "OK", some "application/json", some (Json.obj [("id", .num 1)])⟩

/-- A 500 response with no parseable body. -/
def serverErrorResp : HttpResponse := ⟨500, "Internal Server Error", none, none⟩

/-- A 404 response whose body carries a "not found" detail. -/
def notFoundResp : HttpResponse :=
  ⟨404, "Not Found", some "application/json",
    some (Json.obj [("detail", .str "Proposal not found")])⟩

/-- A 500 response whose body carries an unrelated detail. -/
def boomResp : HttpResponse :=
  ⟨500, "Server Error", some "application/json",
    some (Json.obj [("detail", .str "boom")])⟩

/-- A 200 JSON chat response supplying only the `response` field. -/
def chatOnlyResponseResp : HttpResponse :=
  ⟨200, "OK", some "application/json", some (Json.obj [("response", .str "hi")])⟩

/-- A 200 JSON chat response supplying only the `answer` field. -/
def chatAnswerOnlyResp : HttpResponse :=
  ⟨200, "OK", some "application/json", some (Json.obj [("answer", .str "42")])⟩

/-- A 200 JSON response whose body parses to JSON `null`. -/
def jsonNullResp : HttpResponse := ⟨200, "OK", some "application/json", some Json.null⟩

/-- A 400 response whose error body's `detail` is an empty array: truthy
in JS, but coercing to the empty string, so `new Error([])` carries an
empty message. -/
def emptyDetailResp : HttpResponse :=
  ⟨400, "Bad Request", some "application/json", some (Json.obj [("detail", .arr [])])⟩

/-! Association-list lemmas for storage, headers and JSON object fields. -/

theorem getItem_setItem_self (s : Storage) (k v : String) :
    getItem (setItem s k v) k = some v := by
  induction s with
  | nil => simp [setItem, getItem]
  | cons hd tl ih =>
      by_cases h : hd.1 == k
      · simp [setItem, h, getItem]
      · simp [setItem, h, getItem, ih]

theorem getItem_setItem_other (s : Storage) {k1 k2 : String} (h : k1 ≠ k2) (v : String) :
    getItem (setItem s k1 v) k2 = getItem s k2 := by
  induction s with
  | nil => simp [setItem, getItem, h]
  | cons hd tl ih =>
      by_cases h1 : hd.1 == k1
      · have h1' : hd.1 = k1 := by simpa using h1
        simp [setItem, h1, getItem, h1', h]
      · simp [setItem, h1, getItem, ih]

theorem getItem_removeItem_self (s : Storage) (k : String) :
    getItem (removeItem s k) k = none := by
  induction s with
  | nil => simp [removeItem, getItem]
  | cons hd tl ih =>
      by_cases h : hd.1 == k
      · simp [removeItem, h, ih]
      · simp [removeItem, h, getItem, ih]

theorem getItem_removeItem_other (s : Storage) {k1 k2 : String} (h : k1 ≠ k2) :
    getItem (removeItem s k1) k2 = getItem s k2 := by
  induction s with
  | nil => simp [removeItem, getItem]
  | cons hd tl ih =>
      by_cases h1 : hd.1 == k1
      · have h1' : hd.1 = k1 := by simpa using h1
        simp [removeItem, h1, getItem, h1', h, ih]
      · simp [removeItem, h1, getItem, ih]

namespace ApiClient

theorem getItem_setTokens_access (s : Storage) (a r : String) :
    getItem (setTokens s a r) "access_token" = some a := by
  unfold setTokens
  rw [getItem_setItem_other _ (by decide), getItem_setItem_self]

theorem getItem_setTokens_refresh (s : Storage) (a r : String) :
    getItem (setTokens s a r) "refresh_token" = some r := by
  unfold setTokens
  rw [getItem_setItem_self]

theorem getItem_clearTokens_access (s : Storage) :
    getItem (clearTokens s) "access_token" = none := by
  unfold clearTokens
  rw [getItem_removeItem_other _ (by decide), getItem_removeItem_self]

theorem getItem_clearTokens_refresh (s : Storage) :
    getItem (clearTokens s) "refresh_token" = none := by
  unfold clearTokens
  rw [getItem_removeItem_self]

end ApiClient

theorem getHeader_setHeader_self (hs : List (String × String)) (k v : String) :
    getHeader (setHeader hs k v) k = some v := by
  induction hs with
  | nil => simp [setHeader, getHeader]
  | cons hd tl ih =>
      by_cases h : hd.1 == k
      · simp [setHeader, h, getHeader]
      · simp [setHeader, h, getHeader, ih]

theorem getHeader_setHeader_other (hs : List (String × String)) {k1 k2 : String}
    (h : k1 ≠ k2) (v : String) :
    getHeader (setHeader hs k1 v) k2 = getHeader hs k2 := by
  induction hs with
  | nil => simp [setHeader, getHeader, h]
  | cons hd tl ih =>
      by_cases h1 : hd.1 == k1
      · have h1' : hd.1 = k1 := by simpa using h1
        simp [setHeader, h1, getHeader, h1', h]
      · simp [setHeader, h1, getHeader, ih]

theorem getHeader_spreadHeaders_none (extra : List (String × String)) (k : String)
    (h : lastLookup extra k = none) :
    ∀ base, getHeader (spreadHeaders base extra) k = getHeader base k := by
  induction extra with
  | nil => intro base; simp [spreadHeaders]
  | cons hd tl ih =>
      intro base
      have hsplit : lastLookup tl k = none ∧ (hd.1 == k) = false := by
        unfold lastLookup at h
        rcases hlt : lastLookup tl k with _ | v'
        · rw [hlt] at h
          by_cases hk : hd.1 == k
          · simp [hk] at h
          · exact ⟨rfl, by simpa using hk⟩
        · rw [hlt] at h
          simp at h
      have hbase : spreadHeaders base (hd :: tl) = spreadHeaders (setHeader base hd.1 hd.2) tl := rfl
      rw [hbase, ih hsplit.1]
      exact getHeader_setHeader_other _ (by simpa using hsplit.2) _

theorem getHeader_spreadHeaders_last (extra : List (String × String)) (k v : String)
    (h : lastLookup extra k = some v) :
    ∀ base, getHeader (spreadHeaders base extra) k = some v := by
  induction extra with
  | nil => intro base; simp [lastLookup] at h
  | cons hd tl ih =>
      intro base
      have hbase : spreadHeaders base (hd :: tl) = spreadHeaders (setHeader base hd.1 hd.2) tl := rfl
      rcases hlt : lastLookup tl k with _ | v'
      · unfold lastLookup at h
        rw [hlt] at h
        by_cases hk : hd.1 == k
        · have hk' : hd.1 = k := by simpa using hk
          have hv : hd.2 = v := by simpa [hk] using h
          rw [hbase, getHeader_spreadHeaders_none tl k hlt]
          rw [← hk', ← hv]
          exact getHeader_setHeader_self _ _ _
        · simp [hk] at h
      · have hv : v' = v := by
          unfold lastLookup at h
          rw [hlt] at h
          simpa using h
        subst hv
        rw [hbase]
        exact ih hlt _

namespace ApiClient

theorem lookupField_setField_self (fs : List (String × Json)) (k : String) (v : Json) :
    lookupField (setField fs k v) k = some v := by
  induction fs with
  | nil => simp [setField, lookupField]
  | cons hd tl ih =>
      by_cases h : hd.1 == k
      · simp [setField, h, lookupField]
      · simp [setField, h, lookupField, ih]

theorem lookupField_setField_other (fs : List (String × Json)) {k1 k2 : String}
    (h : k1 ≠ k2) (v : Json) :
    lookupField (setField fs k1 v) k2 = lookupField fs k2 := by
  induction fs with
  | nil => simp [setField, lookupField, h]
  | cons hd tl ih =>
      by_cases h1 : hd.1 == k1
      · have h1' : hd.1 = k1 := by simpa using h1
        simp [setField, h1, lookupField, h1', h]
      · simp [setField, h1, lookupField, ih]

end ApiClient

/-- A 2xx response is neither 401 nor 403. -/
theorem ok_not_auth_status (r : HttpResponse) (h : r.ok = true) :
    (r.status == 401 || r.status == 403) = false := by
  unfold HttpResponse.ok at h
  simp only [Bool.and_eq_true, decide_eq_true_eq] at h
  simp only [Bool.or_eq_false_iff, beq_eq_false_iff_ne]
  omega

/-! The claims. -/

open ApiClient

/-- C1: the claim says an initial 401/403 with both tokens stored leads to
exactly one token refresh and one retry, never more.  The code routes
`refreshAccessToken` through the generic `request` routine, so when the
refresh endpoint itself answers 401 the auth branch recurses and issues
further refresh calls: with both tokens stored and the oracle answering
401 to the original call and to every refresh call (then failing), one
original call issues three fetches to the refresh endpoint before
rejecting with the "Session expired." error. -/
theorem c1_refresh_not_single_evidence :
    refreshCallCount (request "/auth/me" {} storedPair
        [.success unauthorizedResp, .success unauthorizedResp, .success unauthorizedResp,
         .networkError "connection refused"]).trace = 3
  ∧ (request "/auth/me" {} storedPair
        [.success unauthorizedResp, .success unauthorizedResp, .success unauthorizedResp,
         .networkError "connection refused"]).result
      = .error (.error "Session expired. Please login again.") :=
  ⟨rfl, rfl⟩

/-- C2 counterexample: a successful register from empty storage leaves
both tokens absent — `register` deliberately does not persist the pair,
so the claim's "after any successful ... register ... both tokens are
present" fails. -/
theorem c2_register_counterexample :
    (∃ v, (register (Json.obj [("email", .str "new@user.io")]) []
        [.success userJsonResp]).result = .ok v)
  ∧ getItem (register (Json.obj [("email", .str "new@user.io")]) []
        [.success userJsonResp]).storage "access_token" = none
  ∧ getItem (register (Json.obj [("email", .str "new@user.io")]) []
        [.success userJsonResp]).storage "refresh_token" = none :=
  ⟨⟨Json.obj [("id", .num 1)], rfl⟩, rfl, rfl⟩

/-- C3 counterexample: with responses [401, refresh succeeds, 401] the
retry after a successful refresh fails, and the call rejects with the
"Authentication required." message of api.ts:180 — not the "session
expired" error the claim requires for this case. -/
theorem c3_retry_error_message_counterexample :
    (request "/auth/me" {} storedPair
        [.success unauthorizedResp, .success refreshOkResp, .success unauthorizedResp]).result
      = .error (.error "Authentication required. Please login.")
  ∧ "Authentication required. Please login." ≠ "Session expired. Please login again." :=
  ⟨rfl, by decide⟩

/-- C6 counterexample: a 500 export response whose body does not parse
produces the fixed message "Export failed" (api.ts:598), not a message
synthesized from the HTTP status line as the claim states for every
non-JSON operation. -/
theorem c6_export_fallback_counterexample :
    (exportProposal 3 "pdf" storedPair [.success serverErrorResp]).result
      = .error (.error "Export failed")
  ∧ "Export failed" ≠ statusLine serverErrorResp :=
  ⟨rfl, by decide⟩

/-- C7 counterexample: a successful chat reply carrying only the
`response` field ("hi") yields a result whose `answer` field is the empty
string — `answer: response.answer || ""` never copies from `response` —
so the claim's "a backend reply carrying only one of them yields both
non-empty" fails. -/
theorem c7_answer_not_populated_counterexample :
    ¬ (∃ sv, ((chatWithRFP 1 "q" [] [] [.success chatOnlyResponseResp]).result.map
          (fun v => jsField v "answer")) = .ok (some (.str sv)) ∧ sv ≠ "")
  ∧ ((chatWithRFP 1 "q" [] [] [.success chatOnlyResponseResp]).result.map
        (fun v => jsField v "response")) = .ok (some (.str "hi")) := by
  constructor
  · rintro ⟨sv, h, hne⟩
    have h0 : ((chatWithRFP 1 "q" [] [] [.success chatOnlyResponseResp]).result.map
        (fun v => jsField v "answer")) = .ok (some (.str "")) := rfl
    rw [h0] at h
    simp only [Except.ok.injEq, Option.some.injEq, Json.str.injEq] at h
    exact hne h.symm
  · rfl

/-- C9 counterexample: with an access token in storage, a caller-supplied
Authorization header is overwritten by the derived bearer header
(api.ts:135-137 assigns it after spreading caller headers), so the value
sent on the wire is not the caller's value. -/
theorem c9_authorization_override_counterexample :
    ((request "/notifications" { headers := [("Authorization", "Bearer X")] }
        [("access_token", "A")] [.success userJsonResp]).trace.map
          (fun c => getHeader c.headers "Authorization")) = [some "Bearer A"]
  ∧ some "Bearer A" ≠ some "Bearer X" :=
  ⟨rfl, by decide⟩

/-- C5: `getProposalByProject` resolves to `null` whenever the underlying
request rejects with an error whose message contains "404" or
"not found", and rethrows any other rejection unchanged. -/
theorem c5_not_found_null (projectId : Int) (storage : Storage) (world : World) (e : JsError)
    (hreq : (request ("/proposal/by-project/" ++ toString projectId) {} storage world).result
      = .error e) :
    ((strIncludes e.message "404" || strIncludes e.message "not found") = true →
        (getProposalByProject projectId storage world).result = .ok Json.null)
  ∧ ((strIncludes e.message "404" || strIncludes e.message "not found") = false →
        (getProposalByProject projectId storage world).result = .error e) := by
  constructor
  · intro hmatch
    simp [getProposalByProject, hreq, hmatch]
  · intro hmatch
    simp [getProposalByProject, hreq, hmatch]

/-- C5 witness: a 404-detail rejection resolves to `null`; an unrelated
500-detail rejection is rethrown unchanged. -/
theorem c5_not_found_null_witness :
    (getProposalByProject 7 [] [.success notFoundResp]).result = .ok Json.null
  ∧ (getProposalByProject 7 [] [.success boomResp]).result = .error (.error "boom") :=
  ⟨(c5_not_found_null 7 [] [.success notFoundResp] (.error "Proposal not found") rfl).1 (by decide),
   (c5_not_found_null 7 [] [.success boomResp] (.error "boom") rfl).2 (by decide)⟩

/-- C8: a first response that is ok resolves to the parsed body when the
content type indicates JSON, and to the empty object when the content
type is missing or non-JSON, regardless of the body. -/
theorem c8_content_type_parsing (endpoint : String) (options : RequestOptions)
    (storage : Storage) (resp : HttpResponse) (rest : World) (hok : resp.ok = true) :
    (∀ v, isJsonContentType resp.contentType = true → resp.body = some v →
        (request endpoint options storage (.success resp :: rest)).result = .ok v)
  ∧ (isJsonContentType resp.contentType = false →
        (request endpoint options storage (.success resp :: rest)).result = .ok (.obj [])) := by
  have h401 := ok_not_auth_status resp hok
  constructor
  · intro v hct hbody
    simp [request, h401, hok, hct, hbody]
  · intro hct
    simp [request, h401, hok, hct]

/-- C8 witness: a 200 JSON response resolves to its parsed body; a
204-style response with no content type resolves to the empty object. -/
theorem c8_content_type_parsing_witness :
    (request "/auth/me" {} [] [.success userJsonResp]).result = .ok (.obj [("id", .num 1)])
  ∧ (request "/auth/me" {} [] [.success noContentResp]).result = .ok (.obj []) :=
  ⟨(c8_content_type_parsing "/auth/me" {} [] userJsonResp [] rfl).1 _ rfl rfl,
   (c8_content_type_parsing "/auth/me" {} [] noContentResp [] rfl).2 rfl⟩

/-- C4 counterexample: a 400 chat response whose error body is
`{detail: []}` makes the routine throw `new Error([])` — an empty array
is truthy but coerces to the empty string — so the request rejects with
an empty message, and `chatWithRFP` resolves with the fallback string
"Failed to connect to chat service" in its `error` field, not the thrown
message, refuting "error: <message>" for that reachable rejection. -/
theorem c4_empty_message_counterexample :
    (request "/rag/chat" { method := "POST", body := some (chatBody 1 "q" []) } []
        [.success emptyDetailResp]).result = .error (.error "")
  ∧ (chatWithRFP 1 "q" [] [] [.success emptyDetailResp]).result
      = .ok (.obj [("success", .bool false),
                   ("error", .str "Failed to connect to chat service"),
                   ("answer", .str ""), ("response", .str ""),
                   ("sources", .arr []), ("query", .str "q")])
  ∧ "Failed to connect to chat service" ≠ "" :=
  ⟨rfl, rfl, by decide⟩

/-- C4 (amended): `chatWithRFP` always resolves; when the underlying
request rejects with a non-empty message it resolves to the structured
failure object `{success: false, error: message, answer: "",
response: "", sources: [], query}` echoing the original query; when the
thrown error's message is empty (reachable, e.g. an error body whose
`detail` is an empty array), the `error` field is the fallback string
"Failed to connect to chat service" instead of the message. -/
theorem c4_chat_failure_object_amended (projectId : Int) (query : String) (hist : List Json)
    (storage : Storage) (world : World) (e : JsError)
    (hreq : (request "/rag/chat"
        { method := "POST", body := some (chatBody projectId query hist) }
        storage world).result = .error e) :
    (∀ s' w', ∃ v, (chatWithRFP projectId query hist s' w').result = .ok v)
  ∧ (e.message ≠ "" →
      (chatWithRFP projectId query hist storage world).result
        = .ok (.obj [("success", .bool false), ("error", .str e.message),
                     ("answer", .str ""), ("response", .str ""),
                     ("sources", .arr []), ("query", .str query)]))
  ∧ (e.message = "" →
      (chatWithRFP projectId query hist storage world).result
        = .ok (.obj [("success", .bool false),
                     ("error", .str "Failed to connect to chat service"),
                     ("answer", .str ""), ("response", .str ""),
                     ("sources", .arr []), ("query", .str query)])) := by
  refine ⟨?_, ?_, ?_⟩
  · intro s' w'
    cases hres : (request "/rag/chat"
        { method := "POST", body := some (chatBody projectId query hist) } s' w').result with
    | error e' => exact ⟨chatFailure query e', by simp [chatWithRFP, hres]⟩
    | ok j =>
        cases j with
        | null =>
            exact ⟨chatFailure query
              (.error "Cannot read properties of null (reading 'answer')"),
              by simp [chatWithRFP, hres]⟩
        | bool b => exact ⟨chatNormalize (.bool b), by simp [chatWithRFP, hres]⟩
        | num n => exact ⟨chatNormalize (.num n), by simp [chatWithRFP, hres]⟩
        | str s => exact ⟨chatNormalize (.str s), by simp [chatWithRFP, hres]⟩
        | arr xs => exact ⟨chatNormalize (.arr xs), by simp [chatWithRFP, hres]⟩
        | obj fs => exact ⟨chatNormalize (.obj fs), by simp [chatWithRFP, hres]⟩
  · intro hmsg
    have hb : (e.message != "") = true := by simpa using hmsg
    simp [chatWithRFP, hreq, chatFailure, hb]
  · intro hmsg
    have hb : (e.message != "") = false := by simp [hmsg]
    simp [chatWithRFP, hreq, chatFailure, hb]

/-- C4 witness: a network rejection ("Failed to fetch") yields the
failure object carrying that message; the empty-message rejection yields
the failure object carrying the fallback string. -/
theorem c4_chat_failure_object_witness :
    (chatWithRFP 1 "hello" [] [] []).result
      = .ok (.obj [("success", .bool false), ("error", .str "Failed to fetch"),
                   ("answer", .str ""), ("response", .str ""),
                   ("sources", .arr []), ("query", .str "hello")])
  ∧ (chatWithRFP 1 "q" [] [] [.success emptyDetailResp]).result
      = .ok (.obj [("success", .bool false),
                   ("error", .str "Failed to connect to chat service"),
                   ("answer", .str ""), ("response", .str ""),
                   ("sources", .arr []), ("query", .str "q")]) :=
  ⟨(c4_chat_failure_object_amended 1 "hello" [] [] [] (.networkError "Failed to fetch")
      rfl).2.1 (by decide),
   (c4_chat_failure_object_amended 1 "q" [] [] [.success emptyDetailResp] (.error "")
      rfl).2.2 rfl⟩

/-- C10: when the first response is 401/403, both tokens are stored and
the refresh call resolves with a usable (non-null) body — the only case
in which the retry is issued at all — the retry body is parsed
unconditionally (no content-type check): an unparseable or missing retry
body rejects the call with a parse error instead of resolving to the
empty object. -/
theorem c10_retry_unconditional_parse (endpoint : String) (options : RequestOptions)
    (storage : Storage) (resp : HttpResponse) (rest : World) (tok rt : String)
    (refreshed : Json) (retryResp : HttpResponse) (rest2 : World)
    (h401 : (resp.status == 401 || resp.status == 403) = true)
    (htok : getAuthToken storage = some tok) (htokne : tok ≠ "")
    (hrt : getRefreshToken storage = some rt) (hrtne : rt ≠ "")
    (hnested : (request "/auth/refresh" (refreshOptions rt) storage rest).result = .ok refreshed)
    (hrefne : refreshed ≠ Json.null)
    (hw : (request "/auth/refresh" (refreshOptions rt) storage rest).world
      = .success retryResp :: rest2)
    (hretryOk : retryResp.ok = true)
    (hbody : retryResp.body = none) :
    (request endpoint options storage (.success resp :: rest)).result
      = .error (.parseError "Unexpected end of JSON input") := by
  have htr : strTruthy (getAuthToken storage) = true := by
    rw [htok]; simp [strTruthy, htokne]
  have hrtb : (rt != "") = true := by simpa using hrtne
  cases refreshed
  · exact absurd rfl hrefne
  all_goals simp [request, h401, htr, hrt, hrtb, hnested, hw, hretryOk, hbody]

/-- C10 witness: [401, refresh succeeds, 204 no-content retry] rejects
with the parse error. -/
theorem c10_retry_unconditional_parse_witness :
    (request "/auth/me" {} storedPair
        [.success unauthorizedResp, .success refreshOkResp, .success noContentResp]).result
      = .error (.parseError "Unexpected end of JSON input") :=
  c10_retry_unconditional_parse "/auth/me" {} storedPair unauthorizedResp
    [.success refreshOkResp, .success noContentResp] "A" "R"
    (.obj [("access_token", .str "A2"), ("refresh_token", .str "R2"),
           ("token_type", .str "bearer")])
    noContentResp [] rfl rfl (by decide) rfl (by decide) rfl
    (fun h => Json.noConfusion h) rfl rfl rfl

/-- C3 (amended): when the first response is 401/403 and both tokens are
stored, a rejecting refresh call clears both tokens and fails with the
"session expired" error, as the claim states; but when the refresh
succeeds (with a usable, non-null body) and the retry response is not
ok, the code falls through to api.ts:178-180: both tokens are still
cleared, yet the call fails with the "authentication required" error,
not "session expired".  A refresh resolving with a JSON-null body throws
a caught TypeError when its token fields are read: tokens cleared,
"session expired", and no retry fetch is issued. -/
theorem c3_refresh_failure_amended (endpoint : String) (options : RequestOptions)
    (storage : Storage) (resp : HttpResponse) (rest : World) (tok rt : String)
    (e : JsError) (refreshed : Json) (retryResp : HttpResponse) (rest2 : World)
    (h401 : (resp.status == 401 || resp.status == 403) = true)
    (htok : getAuthToken storage = some tok) (htokne : tok ≠ "")
    (hrt : getRefreshToken storage = some rt) (hrtne : rt ≠ "") :
    ((request "/auth/refresh" (refreshOptions rt) storage rest).result = .error e →
        (request endpoint options storage (.success resp :: rest)).result
            = .error (.error "Session expired. Please login again.")
        ∧ getItem (request endpoint options storage (.success resp :: rest)).storage
            "access_token" = none
        ∧ getItem (request endpoint options storage (.success resp :: rest)).storage
            "refresh_token" = none)
  ∧ ((request "/auth/refresh" (refreshOptions rt) storage rest).result = .ok refreshed →
     refreshed ≠ Json.null →
     (request "/auth/refresh" (refreshOptions rt) storage rest).world
        = .success retryResp :: rest2 →
     retryResp.ok = false →
        (request endpoint options storage (.success resp :: rest)).result
            = .error (.error "Authentication required. Please login.")
        ∧ getItem (request endpoint options storage (.success resp :: rest)).storage
            "access_token" = none
        ∧ getItem (request endpoint options storage (.success resp :: rest)).storage
            "refresh_token" = none)
  ∧ ((request "/auth/refresh" (refreshOptions rt) storage rest).result = .ok Json.null →
        (request endpoint options storage (.success resp :: rest)).result
            = .error (.error "Session expired. Please login again.")
        ∧ getItem (request endpoint options storage (.success resp :: rest)).storage
            "access_token" = none
        ∧ getItem (request endpoint options storage (.success resp :: rest)).storage
            "refresh_token" = none
        ∧ (request endpoint options storage (.success resp :: rest)).trace
            = ⟨API_BASE_URL ++ endpoint, options.method,
                requestHeaders storage options, options.body⟩
              :: (request "/auth/refresh" (refreshOptions rt) storage rest).trace) := by
  have htr : strTruthy (getAuthToken storage) = true := by
    rw [htok]; simp [strTruthy, htokne]
  have hrtb : (rt != "") = true := by simpa using hrtne
  refine ⟨?_, ?_, ?_⟩
  · intro hnested
    simp [request, h401, htr, hrt, hrtb, hnested,
      getItem_clearTokens_access, getItem_clearTokens_refresh]
  · intro hnested hne hw hretry
    cases refreshed
    · exact absurd rfl hne
    all_goals simp [request, h401, htr, hrt, hrtb, hnested, hw, hretry,
      getItem_clearTokens_access, getItem_clearTokens_refresh]
  · intro hnested
    simp [request, h401, htr, hrt, hrtb, hnested,
      getItem_clearTokens_access, getItem_clearTokens_refresh]

/-- C3 witness: a network-failing refresh yields "Session expired." with
tokens cleared; a 401 retry after a successful refresh yields
"Authentication required." with tokens cleared; a refresh resolving to a
JSON-null body yields "Session expired." with tokens cleared. -/
theorem c3_refresh_failure_witness :
    ((request "/auth/me" {} storedPair
        [.success unauthorizedResp, .networkError "down"]).result
      = .error (.error "Session expired. Please login again.")
    ∧ getItem (request "/auth/me" {} storedPair
        [.success unauthorizedResp, .networkError "down"]).storage "access_token" = none
    ∧ getItem (request "/auth/me" {} storedPair
        [.success unauthorizedResp, .networkError "down"]).storage "refresh_token" = none)
  ∧ ((request "/auth/me" {} storedPair
        [.success unauthorizedResp, .success refreshOkResp, .success unauthorizedResp]).result
      = .error (.error "Authentication required. Please login.")
    ∧ getItem (request "/auth/me" {} storedPair
        [.success unauthorizedResp, .success refreshOkResp,
         .success unauthorizedResp]).storage "access_token" = none
    ∧ getItem (request "/auth/me" {} storedPair
        [.success unauthorizedResp, .success refreshOkResp,
         .success unauthorizedResp]).storage "refresh_token" = none)
  ∧ ((request "/auth/me" {} storedPair
        [.success unauthorizedResp, .success jsonNullResp]).result
      = .error (.error "Session expired. Please login again.")
    ∧ getItem (request "/auth/me" {} storedPair
        [.success unauthorizedResp, .success jsonNullResp]).storage "access_token" = none) :=
  ⟨(c3_refresh_failure_amended "/auth/me" {} storedPair unauthorizedResp
      [.networkError "down"] "A" "R" (.networkError "down") Json.null
      unauthorizedResp [] rfl rfl (by decide) rfl (by decide)).1 rfl,
   (c3_refresh_failure_amended "/auth/me" {} storedPair unauthorizedResp
      [.success refreshOkResp, .success unauthorizedResp] "A" "R" (.networkError "x")
      (.obj [("access_token", .str "A2"), ("refresh_token", .str "R2"),
             ("token_type", .str "bearer")])
      unauthorizedResp [] rfl rfl (by decide) rfl (by decide)).2.1 rfl
     (fun h => Json.noConfusion h) rfl rfl,
   ⟨((c3_refresh_failure_amended "/auth/me" {} storedPair unauthorizedResp
      [.success jsonNullResp] "A" "R" (.networkError "x") Json.null
      unauthorizedResp [] rfl rfl (by decide) rfl (by decide)).2.2 rfl).1,
    ((c3_refresh_failure_amended "/auth/me" {} storedPair unauthorizedResp
      [.success jsonNullResp] "A" "R" (.networkError "x") Json.null
      unauthorizedResp [] rfl rfl (by decide) rfl (by decide)).2.2 rfl).2.1⟩⟩

/-- C6 (amended): non-JSON operations fail immediately on any non-ok
response (including 401) with exactly one fetch issued — no
refresh-and-retry; the message is the parsed body's truthy `detail`
field; when the body does not parse, `uploadRFP` synthesizes the message
from the HTTP status line, while `exportProposal` uses the fixed fallback
"Export failed". -/
theorem c6_nonjson_failure_amended (projectId proposalId : Int) (format : String)
    (storage : Storage) (resp : HttpResponse) (rest : World)
    (hnok : resp.ok = false) :
    ((uploadRFP projectId storage (.success resp :: rest)).trace.length = 1
      ∧ (resp.body = none →
            (uploadRFP projectId storage (.success resp :: rest)).result
              = .error (.error (statusLine resp)))
      ∧ (∀ fs d, resp.body = some (.obj fs) → lookupField fs "detail" = some (.str d) →
            d ≠ "" →
            (uploadRFP projectId storage (.success resp :: rest)).result
              = .error (.error d)))
  ∧ ((exportProposal proposalId format storage (.success resp :: rest)).trace.length = 1
      ∧ (resp.body = none →
            (exportProposal proposalId format storage (.success resp :: rest)).result
              = .error (.error "Export failed"))
      ∧ (∀ fs d, resp.body = some (.obj fs) → lookupField fs "detail" = some (.str d) →
            d ≠ "" →
            (exportProposal proposalId format storage (.success resp :: rest)).result
              = .error (.error d))) := by
  refine ⟨⟨?_, ?_, ?_⟩, ?_, ?_, ?_⟩
  · rcases hb : resp.body with _ | v
    · simp [uploadRFP, hnok, hb]
    · cases v <;> simp [uploadRFP, hnok, hb]
  · intro hbody
    simp [uploadRFP, hnok, hbody]
  · intro fs d hbody hdetail hdne
    have hd : (d != "") = true := by simpa using hdne
    simp [uploadRFP, hnok, hbody, detailOr, jsField, hdetail, jsTruthy, hd, jsToString]
  · rcases hb : resp.body with _ | v
    · simp [exportProposal, hnok, hb]
    · cases v <;> simp [exportProposal, hnok, hb]
  · intro hbody
    simp [exportProposal, hnok, hbody]
  · intro fs d hbody hdetail hdne
    have hd : (d != "") = true := by simpa using hdne
    simp [exportProposal, hnok, hbody, detailOr, jsField, hdetail, jsTruthy, hd, jsToString]

/-- The `answer` field of the normalized chat result. -/
theorem jsField_chatNormalize_answer (fs : List (String × Json)) :
    jsField (chatNormalize (.obj fs)) "answer"
      = some (jsOr (lookupField fs "answer") (.str "")) := by
  simp only [chatNormalize, jsField, jsSpread]
  rw [@lookupField_setField_other _ "success" "answer" (by decide) _,
      @lookupField_setField_other _ "response" "answer" (by decide) _,
      lookupField_setField_self]

/-- The `response` field of the normalized chat result. -/
theorem jsField_chatNormalize_response (fs : List (String × Json)) :
    jsField (chatNormalize (.obj fs)) "response"
      = some (jsOr (lookupField fs "answer") (jsOr (lookupField fs "response") (.str ""))) := by
  simp only [chatNormalize, jsField, jsSpread]
  rw [@lookupField_setField_other _ "success" "response" (by decide) _,
      lookupField_setField_self]

/-- The `success` field of the normalized chat result. -/
theorem jsField_chatNormalize_success (fs : List (String × Json)) :
    jsField (chatNormalize (.obj fs)) "success"
      = some (match lookupField fs "success" with | some sv => sv | none => .bool true) := by
  simp only [chatNormalize, jsField, jsSpread]
  rw [lookupField_setField_self]

/-- C7 (amended): on a successful chat request whose body parses to an
object, the normalization populates both fields from a truthy `answer`;
when `answer` is absent the result's `answer` is the empty string (it is
never copied from `response`), while a truthy `response` is preserved;
and `success` defaults to `true` exactly when the backend omits it. -/
theorem c7_chat_normalization_amended (projectId : Int) (query : String) (hist : List Json)
    (storage : Storage) (world : World) (fs : List (String × Json))
    (hreq : (request "/rag/chat"
        { method := "POST", body := some (chatBody projectId query hist) }
        storage world).result = .ok (.obj fs)) :
    ∃ v, (chatWithRFP projectId query hist storage world).result = .ok v
      ∧ (∀ a, lookupField fs "answer" = some a → jsTruthy a = true →
            jsField v "answer" = some a ∧ jsField v "response" = some a)
      ∧ (lookupField fs "answer" = none → jsField v "answer" = some (.str ""))
      ∧ (∀ rv, lookupField fs "answer" = none → lookupField fs "response" = some rv →
            jsTruthy rv = true → jsField v "response" = some rv)
      ∧ (lookupField fs "success" = none → jsField v "success" = some (.bool true))
      ∧ (∀ sv, lookupField fs "success" = some sv → jsField v "success" = some sv) := by
  refine ⟨chatNormalize (.obj fs), by simp [chatWithRFP, hreq], ?_, ?_, ?_, ?_, ?_⟩
  · intro a ha hat
    rw [jsField_chatNormalize_answer, jsField_chatNormalize_response]
    simp [jsOr, ha, hat]
  · intro ha
    rw [jsField_chatNormalize_answer]
    simp [jsOr, ha]
  · intro rv ha hrv hrt
    rw [jsField_chatNormalize_response]
    simp [jsOr, ha, hrv, hrt]
  · intro hs
    rw [jsField_chatNormalize_success]
    simp [hs]
  · intro sv hs
    rw [jsField_chatNormalize_success]
    simp [hs]

/-- C7 witness: a chat reply supplying only `answer` ("42") yields a
result with both fields "42" and `success` defaulted to true. -/
theorem c7_chat_normalization_witness :
    ((chatWithRFP 2 "q" [] [] [.success chatAnswerOnlyResp]).result.map
        (fun v => jsField v "answer")) = .ok (some (.str "42"))
  ∧ ((chatWithRFP 2 "q" [] [] [.success chatAnswerOnlyResp]).result.map
        (fun v => jsField v "response")) = .ok (some (.str "42"))
  ∧ ((chatWithRFP 2 "q" [] [] [.success chatAnswerOnlyResp]).result.map
        (fun v => jsField v "success")) = .ok (some (.bool true)) := by
  obtain ⟨v, hv, h1, h2, h3, h4, h5⟩ :=
    c7_chat_normalization_amended 2 "q" [] [] [.success chatAnswerOnlyResp]
      [("answer", .str "42")] rfl
  obtain ⟨hans, hres⟩ := h1 (.str "42") rfl (by decide)
  refine ⟨?_, ?_, ?_⟩ <;> rw [hv] <;> simp only [Except.map]
  · exact congrArg Except.ok hans
  · exact congrArg Except.ok hres
  · exact congrArg Except.ok (h4 rfl)

/-- The first fetch call of a request carries the computed default-plus-
caller headers. -/
theorem request_trace_head (endpoint : String) (options : RequestOptions)
    (storage : Storage) (world : World) :
    ∃ restTrace, (request endpoint options storage world).trace
      = ⟨API_BASE_URL ++ endpoint, options.method,
          requestHeaders storage options, options.body⟩ :: restTrace := by
  cases world with
  | nil => exact ⟨[], rfl⟩
  | cons o rest =>
      cases o with
      | networkError m => exact ⟨[], rfl⟩
      | success resp =>
          simp only [request]
          repeat' split
          all_goals exact ⟨_, rfl⟩

/-- C9 (amended): the first fetch of every request carries the computed
headers; a caller-supplied Content-Type overrides the JSON default; but
with a truthy access token in storage the derived bearer header is
assigned last and overrides any caller-supplied Authorization — the
caller's Authorization is sent only when no truthy access token is
stored. -/
theorem c9_header_override_amended (storage : Storage) (options : RequestOptions)
    (endpoint : String) (world : World) :
    (∃ c restTrace, (request endpoint options storage world).trace = c :: restTrace
        ∧ c.headers = requestHeaders storage options)
  ∧ (∀ v, lastLookup options.headers "Content-Type" = some v →
        getHeader (requestHeaders storage options) "Content-Type" = some v)
  ∧ (∀ t, getAuthToken storage = some t → t ≠ "" →
        getHeader (requestHeaders storage options) "Authorization" = some ("Bearer " ++ t))
  ∧ (∀ v, strTruthy (getAuthToken storage) = false →
        lastLookup options.headers "Authorization" = some v →
        getHeader (requestHeaders storage options) "Authorization" = some v) := by
  refine ⟨?_, ?_, ?_, ?_⟩
  · obtain ⟨restTrace, h⟩ := request_trace_head endpoint options storage world
    exact ⟨_, restTrace, h, rfl⟩
  · intro v hlast
    rcases hga : getAuthToken storage with _ | t
    · simp only [requestHeaders, hga]
      exact getHeader_spreadHeaders_last _ _ _ hlast _
    · simp only [requestHeaders, hga]
      by_cases htb : (t != "") = true
      · rw [if_pos htb, getHeader_setHeader_other _ (by decide) _]
        exact getHeader_spreadHeaders_last _ _ _ hlast _
      · rw [if_neg htb]
        exact getHeader_spreadHeaders_last _ _ _ hlast _
  · intro t hga htne
    simp only [requestHeaders, hga]
    rw [if_pos (by simpa using htne : (t != "") = true)]
    exact getHeader_setHeader_self _ _ _
  · intro v hft hlast
    rcases hga : getAuthToken storage with _ | t
    · simp only [requestHeaders, hga]
      exact getHeader_spreadHeaders_last _ _ _ hlast _
    · have htb : (t != "") = false := by
        rw [hga] at hft
        simpa [strTruthy] using hft
      simp only [requestHeaders, hga]
      rw [if_neg (by simp [htb])]
      exact getHeader_spreadHeaders_last _ _ _ hlast _

/-- C9 witness: a caller Content-Type overrides the default; with a
stored access token the caller's Authorization is overridden by the
bearer default; with no stored access token the caller's Authorization
survives. -/
theorem c9_header_override_witness :
    getHeader (requestHeaders [("access_token", "A")]
        { headers := [("Content-Type", "text/plain"), ("Authorization", "Bearer X")] })
      "Content-Type" = some "text/plain"
  ∧ getHeader (requestHeaders [("access_token", "A")]
        { headers := [("Content-Type", "text/plain"), ("Authorization", "Bearer X")] })
      "Authorization" = some "Bearer A"
  ∧ getHeader (requestHeaders []
        { headers := [("Authorization", "Bearer X")] }) "Authorization" = some "Bearer X" :=
  ⟨(c9_header_override_amended [("access_token", "A")]
      { headers := [("Content-Type", "text/plain"), ("Authorization", "Bearer X")] }
      "/notifications" []).2.1 "text/plain" rfl,
   (c9_header_override_amended [("access_token", "A")]
      { headers := [("Content-Type", "text/plain"), ("Authorization", "Bearer X")] }
      "/notifications" []).2.2.1 "A" rfl (by decide),
   (c9_header_override_amended []
      { headers := [("Authorization", "Bearer X")] }
      "/notifications" []).2.2.2 "Bearer X" rfl rfl⟩

/-- C6 witness: a 401 upload response with no parseable body fails with
the synthesized status line after a single fetch; a 403 export response
with a truthy detail fails with that detail after a single fetch. -/
theorem c6_nonjson_failure_witness :
    ((uploadRFP 5 storedPair [.success unauthorizedResp]).trace.length = 1
      ∧ (uploadRFP 5 storedPair [.success unauthorizedResp]).result
          = .error (.error (statusLine unauthorizedResp)))
  ∧ ((exportProposal 9 "docx" storedPair [.success boomResp]).trace.length = 1
      ∧ (exportProposal 9 "docx" storedPair [.success boomResp]).result
          = .error (.error "boom")) :=
  ⟨⟨(c6_nonjson_failure_amended 5 9 "docx" storedPair unauthorizedResp [] rfl).1.1,
    (c6_nonjson_failure_amended 5 9 "docx" storedPair unauthorizedResp [] rfl).1.2.1 rfl⟩,
   ⟨(c6_nonjson_failure_amended 5 9 "docx" storedPair boomResp [] rfl).2.1,
    (c6_nonjson_failure_amended 5 9 "docx" storedPair boomResp [] rfl).2.2.2
      [("detail", .str "boom")] "boom" rfl rfl (by decide)⟩⟩

/-- C2 (amended): token storage writes are always paired — `setTokens`
writes both keys and `clearTokens` removes both; after a successful login
both tokens are present; a successful register performs no token write
(the claim's "after any successful register both tokens are present"
fails — registration deliberately does not auto-login); after logout
neither token is present; and after a request whose first response is
401/403 ends in a thrown Error (any terminal auth failure — the only
exception is the retry-body parse rejection, which bypasses the catch),
neither token is present. -/
theorem c2_token_pairing_amended :
    (∀ s a r, getItem (setTokens s a r) "access_token" = some a
        ∧ getItem (setTokens s a r) "refresh_token" = some r)
  ∧ (∀ s, getItem (clearTokens s) "access_token" = none
        ∧ getItem (clearTokens s) "refresh_token" = none)
  ∧ (∀ cred s w v, (login cred s w).result = .ok v →
        (getItem (login cred s w).storage "access_token").isSome = true
        ∧ (getItem (login cred s w).storage "refresh_token").isSome = true)
  ∧ (∀ u s resp rest, resp.ok = true →
        (register u s (.success resp :: rest)).storage = s)
  ∧ (∀ s, getItem (logout s) "access_token" = none
        ∧ getItem (logout s) "refresh_token" = none)
  ∧ (∀ endpoint options s resp rest e,
        (resp.status == 401 || resp.status == 403) = true →
        (request endpoint options s (.success resp :: rest)).result = .error e →
        (∀ m, e ≠ .parseError m) →
        getItem (request endpoint options s (.success resp :: rest)).storage
          "access_token" = none
        ∧ getItem (request endpoint options s (.success resp :: rest)).storage
          "refresh_token" = none) := by
  refine ⟨?_, ?_, ?_, ?_, ?_, ?_⟩
  · intro s a r
    exact ⟨getItem_setTokens_access s a r, getItem_setTokens_refresh s a r⟩
  · intro s
    exact ⟨getItem_clearTokens_access s, getItem_clearTokens_refresh s⟩
  · intro cred s w v hok
    cases hr : (request "/auth/login" { method := "POST", body := some cred } s w).result with
    | error e => simp [login, hr] at hok
    | ok j =>
        cases j with
        | null => simp [login, hr] at hok
        | bool b =>
            simp [login, hr, getItem_setTokens_access, getItem_setTokens_refresh]
        | num n =>
            simp [login, hr, getItem_setTokens_access, getItem_setTokens_refresh]
        | str str =>
            simp [login, hr, getItem_setTokens_access, getItem_setTokens_refresh]
        | arr xs =>
            simp [login, hr, getItem_setTokens_access, getItem_setTokens_refresh]
        | obj fs =>
            simp [login, hr, getItem_setTokens_access, getItem_setTokens_refresh]
  · intro u s resp rest hok
    have h401 := ok_not_auth_status resp hok
    by_cases hct : isJsonContentType resp.contentType
    · rcases hb : resp.body with _ | v
      · simp [register, request, h401, hok, hct, hb]
      · simp [register, request, h401, hok, hct, hb]
    · simp [register, request, h401, hok, hct]
  · intro s
    exact ⟨getItem_clearTokens_access s, getItem_clearTokens_refresh s⟩
  · intro endpoint options s resp rest e h401 herr hnp
    by_cases ht : strTruthy (getAuthToken s) = true
    · rcases hrt : getRefreshToken s with _ | rt
      · simp [request, h401, ht, hrt,
          getItem_clearTokens_access, getItem_clearTokens_refresh]
      · by_cases hrtb : (rt != "") = true
        · cases hn : (request "/auth/refresh" (refreshOptions rt) s rest).result with
          | error e' =>
              simp [request, h401, ht, hrt, hrtb, hn,
                getItem_clearTokens_access, getItem_clearTokens_refresh]
          | ok refreshed =>
              cases refreshed
              · simp [request, h401, ht, hrt, hrtb, hn,
                  getItem_clearTokens_access, getItem_clearTokens_refresh]
              all_goals (
                cases hw : (request "/auth/refresh" (refreshOptions rt) s rest).world with
                | nil =>
                    simp [request, h401, ht, hrt, hrtb, hn, hw,
                      getItem_clearTokens_access, getItem_clearTokens_refresh]
                | cons o2 rest2 =>
                    cases o2 with
                    | networkError m2 =>
                        simp [request, h401, ht, hrt, hrtb, hn, hw,
                          getItem_clearTokens_access, getItem_clearTokens_refresh]
                    | success retryResp =>
                        by_cases hro : retryResp.ok = true
                        · rcases hb : retryResp.body with _ | v
                          · have hres : (request endpoint options s
                                (.success resp :: rest)).result
                                  = .error (.parseError "Unexpected end of JSON input") := by
                              simp [request, h401, ht, hrt, hrtb, hn, hw, hro, hb]
                            have he := hres.symm.trans herr
                            injection he with he'
                            exact absurd he'.symm (hnp _)
                          · have hres : (request endpoint options s
                                (.success resp :: rest)).result = .ok v := by
                              simp [request, h401, ht, hrt, hrtb, hn, hw, hro, hb]
                            rw [hres] at herr
                            exact absurd herr (by simp)
                        · have hro' : retryResp.ok = false := by
                            rw [Bool.not_eq_true] at hro
                            exact hro
                          simp [request, h401, ht, hrt, hrtb, hn, hw, hro',
                            getItem_clearTokens_access, getItem_clearTokens_refresh])
        · have hrtb' : (rt != "") = false := by
            rw [Bool.not_eq_true] at hrtb
            exact hrtb
          simp [request, h401, ht, hrt, hrtb',
            getItem_clearTokens_access, getItem_clearTokens_refresh]
    · have ht' : strTruthy (getAuthToken s) = false := by
        rw [Bool.not_eq_true] at ht
        exact ht
      simp [request, h401, ht',
        getItem_clearTokens_access, getItem_clearTokens_refresh]

/-- C2 witness: concrete instances of the pairing facts — a paired write,
a login that stores both tokens, a register that stores none, a logout
that clears, and a no-token 401 that leaves storage without tokens. -/
theorem c2_token_pairing_witness :
    (getItem (setTokens [] "a" "r") "access_token" = some "a"
      ∧ getItem (setTokens [] "a" "r") "refresh_token" = some "r")
  ∧ ((getItem (login (Json.obj []) [] [.success refreshOkResp]).storage
        "access_token").isSome = true
      ∧ (getItem (login (Json.obj []) [] [.success refreshOkResp]).storage
        "refresh_token").isSome = true)
  ∧ (register (Json.obj []) storedPair [.success userJsonResp]).storage = storedPair
  ∧ getItem (logout storedPair) "access_token" = none
  ∧ (getItem (request "/auth/me" {} [] [.success unauthorizedResp]).storage
        "access_token" = none
      ∧ getItem (request "/auth/me" {} [] [.success unauthorizedResp]).storage
        "refresh_token" = none) :=
  ⟨c2_token_pairing_amended.1 [] "a" "r",
   c2_token_pairing_amended.2.2.1 (Json.obj []) [] [.success refreshOkResp]
     (.obj [("access_token", .str "A2"), ("refresh_token", .str "R2"),
            ("token_type", .str "bearer")]) rfl,
   c2_token_pairing_amended.2.2.2.1 (Json.obj []) storedPair userJsonResp [] rfl,
   (c2_token_pairing_amended.2.2.2.2.1 storedPair).1,
   c2_token_pairing_amended.2.2.2.2.2 "/auth/me" {} [] unauthorizedResp []
     (.error "Authentication required. Please login.") rfl rfl
     (fun _ h => JsError.noConfusion h)⟩

end NovaIntel
